import Mathlib

/-
Verification of the conversational-agent subsystem of the storefront
repository: the guardrail policy engine, the fuzzy product matcher, the
history window manager, and the tool dispatcher, embedded shallowly from
the TypeScript sources.  Strings are modelled as lists of characters;
JavaScript regular-expression tests are translated pattern by pattern into
executable matchers.
-/

/-- The character list of a string literal (JavaScript strings are matched
character by character). -/
def chars (s : String) : List Char := s.data

/-- JavaScript regular-expression class whitespace, on the ASCII range the
SQL keywords and commands use: space, tab, line feed, carriage return,
vertical tab, form feed. -/
def isJsWs (c : Char) : Bool :=
  c == ' ' || c == '\t' || c == '\n' || c == '\r' || c == '\x0b' || c == '\x0c'

/-- JavaScript regular-expression dot without the s flag: any character that
is not a line terminator. -/
def isJsDot (c : Char) : Bool :=
  !(c == '\n' || c == '\r' || c == '\u2028' || c == '\u2029')

/-- JavaScript regular-expression word character, [A-Za-z0-9_], used by the
word-boundary assertions. -/
def isJsWord (c : Char) : Bool :=
  c.isAlpha || c.isDigit || c == '_'

/-- Case-insensitive character comparison (the i regex flag). -/
def ciEq (a b : Char) : Bool := a.toLower == b.toLower

/-- Strip pat case-insensitively from the front of the string; on success
return the remainder. -/
def stripCI : List Char → List Char → Option (List Char)
  | [], s => some s
  | _ :: _, [] => none
  | p :: ps, c :: cs => if ciEq p c then stripCI ps cs else none

/-- Case-sensitive test that the string starts with pat. -/
def startsWithCS : List Char → List Char → Bool
  | [], _ => true
  | _ :: _, [] => false
  | p :: ps, c :: cs => p == c && startsWithCS ps cs

/-- Case-sensitive substring test, modelling String.prototype.includes. -/
def containsCS (pat : List Char) : List Char → Bool
  | [] => pat.isEmpty
  | c :: cs => startsWithCS pat (c :: cs) || containsCS pat cs

/-- The remainders of the string after the regex piece backslash-s-plus has
matched at the front: one or more leading whitespace characters consumed. -/
def wsPlusRests : List Char → List (List Char)
  | [] => []
  | c :: cs => if isJsWs c then cs :: wsPlusRests cs else []

/-- The remainders of the string after the regex piece dot-star has matched
at the front: any number of non-line-terminator characters consumed. -/
def dotStarRests : List Char → List (List Char)
  | [] => [[]]
  | c :: cs => (c :: cs) :: (if isJsDot c then dotStarRests cs else [])

/-- part_007 line 64, the first ALLOWED_SQL_PATTERNS entry: the anchored
case-insensitive pattern SELECT, whitespace, anything, whitespace, FROM,
whitespace, anything, to the end of the string. -/
def matchesSelectFrom (s : List Char) : Bool :=
  match stripCI (chars "SELECT") s with
  | none => false
  | some r1 =>
    (wsPlusRests r1).any fun r2 =>
      (dotStarRests r2).any fun r3 =>
        (wsPlusRests r3).any fun r4 =>
          match stripCI (chars "FROM") r4 with
          | none => false
          | some r5 => (wsPlusRests r5).any fun r6 => r6.all isJsDot

/-- part_007 line 65, the second ALLOWED_SQL_PATTERNS entry: WITH,
whitespace, anything, whitespace, then the SELECT ... FROM ... body to the
end of the string. -/
def matchesWithSelectFrom (s : List Char) : Bool :=
  match stripCI (chars "WITH") s with
  | none => false
  | some r1 =>
    (wsPlusRests r1).any fun r2 =>
      (dotStarRests r2).any fun r3 =>
        (wsPlusRests r3).any fun r4 => matchesSelectFrom r4

/-- part_007 lines 63-66 with line 576: some allowed pattern tests true. -/
def matchesAllowedPattern (q : List Char) : Bool :=
  matchesSelectFrom q || matchesWithSelectFrom q

/-- Unanchored case-insensitive test of a keyword followed by at least one
whitespace character, modelling the deny patterns of the form keyword,
backslash-s-plus. -/
def kwWsHit (kw : List Char) : List Char → Bool
  | [] => false
  | c :: cs =>
    (match stripCI kw (c :: cs) with
     | some (r :: _) => isJsWs r
     | some [] => false
     | none => false) || kwWsHit kw cs

/-- Unanchored case-insensitive test of BENCHMARK, any whitespace, an opening
parenthesis, modelling the last deny pattern. -/
def benchmarkHit : List Char → Bool
  | [] => false
  | c :: cs =>
    (match stripCI (chars "BENCHMARK") (c :: cs) with
     | some r =>
       (match r.dropWhile isJsWs with
        | '(' :: _ => true
        | _ => false)
     | none => false) || benchmarkHit cs

/-- part_007 lines 69-77 with line 582: some DISALLOWED_SQL_PATTERNS entry
tests true on the query. -/
def matchesDisallowedPattern (q : List Char) : Bool :=
  kwWsHit (chars "DROP") q || kwWsHit (chars "ALTER") q ||
  kwWsHit (chars "CREATE") q || kwWsHit (chars "TRUNCATE") q ||
  kwWsHit (chars "EXEC") q || kwWsHit (chars "UNION") q ||
  benchmarkHit q

/-- One starting position of the restricted-table pattern: the keyword
case-insensitively, at least one whitespace character, the table name, then a
word boundary (end of string or a non-word character).  The boundary before
the keyword is checked by the caller. -/
def kwTableHitAt (kw tbl : List Char) (s : List Char) : Bool :=
  match stripCI kw s with
  | none => false
  | some [] => false
  | some (w :: r2) =>
    isJsWs w &&
      (match stripCI tbl ((w :: r2).dropWhile isJsWs) with
       | some [] => true
       | some (n :: _) => !isJsWord n
       | none => false)

/-- Unanchored scan for the restricted-table pattern with its leading word
boundary: prev is the character before the current position. -/
def kwTableScan (kw tbl : List Char) : Option Char → List Char → Bool
  | _, [] => false
  | prev, c :: cs =>
    ((match prev with
      | none => true
      | some p => !isJsWord p) && kwTableHitAt kw tbl (c :: cs))
      || kwTableScan kw tbl (some c) cs

/-- part_007 lines 80-82 and 588-591: the query references a restricted table
through the FROM or JOIN patterns built for each RESTRICTED_TABLES entry
(SecurityAnswers is the only entry). -/
def referencesRestrictedTable (q : List Char) : Bool :=
  kwTableScan (chars "FROM") (chars "SecurityAnswers") none q ||
  kwTableScan (chars "JOIN") (chars "SecurityAnswers") none q

/-- part_007 lines 574-597: isQueryAllowed — reject when no allow pattern
matches, then when a deny pattern matches, then when a restricted table is
referenced; otherwise allow. -/
def isQueryAllowed (query : List Char) : Bool :=
  if !matchesAllowedPattern query then false
  else if matchesDisallowedPattern query then false
  else if referencesRestrictedTable query then false
  else true

/-- JavaScript split on a single space character: every space is a
separator, and consecutive separators contribute empty tokens. -/
def splitOnSpace : List Char → List (List Char)
  | [] => [[]]
  | c :: cs =>
    if c == ' ' then [] :: splitOnSpace cs
    else
      match splitOnSpace cs with
      | [] => [[c]]
      | w :: ws => (c :: w) :: ws

/-- Split at every whitespace character (the same shape as splitOnSpace but
for the whole whitespace class). -/
def splitOnWs : List Char → List (List Char)
  | [] => [[]]
  | c :: cs =>
    if isJsWs c then [] :: splitOnWs cs
    else
      match splitOnWs cs with
      | [] => [[c]]
      | w :: ws => (c :: w) :: ws

/-- Whitespace-separated tokens of a string: the nonempty pieces between
whitespace characters. -/
def wsTokens (s : List Char) : List (List Char) :=
  (splitOnWs s).filter (fun w => !w.isEmpty)

/-- frontend chatbot.service.ts lines 571-586: calculateNameMatchScore —
case-folded exact equality scores 1; the candidate containing the search term
scores 0.9; the search term containing the candidate scores 0.8; otherwise
the ratio of search tokens also occurring among the candidate tokens to the
larger token count, with tokens from split on a single space. -/
def calculateNameMatchScore (search actual : List Char) : ℚ :=
  let searchLower := search.map Char.toLower
  let actualLower := actual.map Char.toLower
  if searchLower = actualLower then 1
  else if containsCS searchLower actualLower then 9/10
  else if containsCS actualLower searchLower then 8/10
  else
    let searchWords := splitOnSpace searchLower
    let actualWords := splitOnSpace actualLower
    let commonWords := searchWords.filter (fun w => actualWords.contains w)
    (commonWords.length : ℚ) / (max searchWords.length actualWords.length : ℚ)

/-- The Fuzzy Matcher scoring exactly as the specification words it (§4.2):
the same strict precedence order, with the word-overlap ratio computed over
whitespace-separated tokens.  Reference definition compared against
calculateNameMatchScore. -/
def specNameMatchScore (search actual : List Char) : ℚ :=
  let searchLower := search.map Char.toLower
  let actualLower := actual.map Char.toLower
  if searchLower = actualLower then 1
  else if containsCS searchLower actualLower then 9/10
  else if containsCS actualLower searchLower then 8/10
  else
    let searchWords := wsTokens searchLower
    let actualWords := wsTokens actualLower
    let commonWords := searchWords.filter (fun w => actualWords.contains w)
    (commonWords.length : ℚ) / (max searchWords.length actualWords.length : ℚ)

/-- part_008 lines 146-150: the Message roles. -/
inductive Role
  | system
  | user
  | assistant
  | function
deriving DecidableEq

/-- part_008 lines 146-150: a conversation Message. -/
structure Msg where
  role : Role
  content : List Char
  name : Option (List Char) := none
deriving DecidableEq

/-- part_008 line 160 / part_007 line 60: the history bound. -/
def MAX_HISTORY_LENGTH : Nat := 10

/-- part_008 lines 966-984 / part_007 lines 602-620: addToConversationHistory
on the (already initialised) per-user history list: push the message, and if
the length exceeds MAX_HISTORY_LENGTH + 1 keep the system message (element 0)
followed by the last MAX_HISTORY_LENGTH entries. -/
def addToConversationHistory (history : List Msg) (message : Msg) : List Msg :=
  let h := history ++ [message]
  if MAX_HISTORY_LENGTH + 1 < h.length then
    match h with
    | [] => h
    | systemMessage :: _ => systemMessage :: h.drop (h.length - MAX_HISTORY_LENGTH)
  else h

/-- chatbot.service.ts line 27: the confirmation threshold. -/
def MATCH_THRESHOLD : ℚ := 8/10

/-- A catalog product as returned by the product-search collaborator. -/
structure CatalogProduct where
  id : Int
  name : List Char
  price : ℚ
deriving DecidableEq

/-- A scored product: chatbot.service.ts lines 556-561.  matchScore models
the source field named matches (a reserved word in Lean). -/
structure ResolvedProduct where
  id : Int
  name : List Char
  price : ℚ
  matchScore : ℚ
deriving DecidableEq

/-- chatbot.service.ts lines 545-569: resolveProductFromName — score every
search result against the requested name, sort by score descending, return
the best match (none when the search returned nothing). -/
def resolveProductFromName (productName : List Char) (products : List CatalogProduct) :
    Option ResolvedProduct :=
  if products.isEmpty then none
  else
    ((products.map fun p =>
        ResolvedProduct.mk p.id p.name p.price
          (calculateNameMatchScore productName p.name)).mergeSort
      (fun a b => decide (b.matchScore ≤ a.matchScore))).head?

/-- The basketService.save call recorded when the basket-add flow mutates the
basket. -/
structure BasketSaveCmd where
  productId : Int
  basketId : List Char
  quantity : ℚ
deriving DecidableEq

/-- The response of the basket-add flow, with the mutation (if any) made
observable. -/
structure BasketAddResponse where
  text : List Char
  requiresConfirmation : Bool
  errorFlag : Bool
  success : Bool
  savedMutation : Option BasketSaveCmd
deriving DecidableEq

/-- chatbot.service.ts lines 230-296: the add branch of handleBasketAction —
resolve the product; no match asks to be more specific; a match below
MATCH_THRESHOLD returns a confirmation request and does not save; otherwise,
with a basket id present, the basket mutation is performed. -/
def handleBasketAddAction (products : List CatalogProduct) (basketId : Option (List Char))
    (productName : List Char) (quantity : Option ℚ) : BasketAddResponse :=
  match resolveProductFromName productName products with
  | none =>
    { text := chars "I could not find a product matching " ++ productName
      requiresConfirmation := false
      errorFlag := false
      success := false
      savedMutation := none }
  | some product =>
    if product.matchScore < MATCH_THRESHOLD then
      { text := chars "Did you mean " ++ product.name ++ chars "?"
        requiresConfirmation := true
        errorFlag := false
        success := false
        savedMutation := none }
    else
      match basketId with
      | none =>
        { text := chars "Sorry, I could not add the item to your basket."
          requiresConfirmation := false
          errorFlag := true
          success := false
          savedMutation := none }
      | some bid =>
        { text := chars "Added " ++ product.name ++ chars " to your basket."
          requiresConfirmation := false
          errorFlag := false
          success := true
          savedMutation := some { productId := product.id
                                  basketId := bid
                                  quantity := quantity.getD 1 } }

/-- A JSON value as passed in a tool call's arguments (the shapes the
dispatcher inspects: strings and numbers). -/
inductive JsonValue
  | jstr (s : List Char)
  | jnum (q : ℚ)
deriving DecidableEq

/-- The arguments object of a tool call, with the fields the catalog's tools
declare; an absent field is none. -/
structure ToolParams where
  query : Option (List Char) := none
  userId : Option (List Char) := none
  productId : Option JsonValue := none
  quantity : Option ℚ := none
  discount : Option ℚ := none
  command : Option (List Char) := none
  explanation : Option (List Char) := none
deriving DecidableEq

/-- JavaScript parseInt(s, 10) on the shapes occurring here: skip leading
whitespace, an optional sign, then a maximal run of decimal digits; none
models NaN. -/
def jsParseInt (s : List Char) : Option Int :=
  let t := s.dropWhile isJsWs
  let su : Bool × List Char :=
    match t with
    | '-' :: rest => (true, rest)
    | '+' :: rest => (false, rest)
    | _ => (false, t)
  let ds := su.2.takeWhile Char.isDigit
  if ds.isEmpty then none
  else
    let v : Int := Int.ofNat (ds.foldl (fun acc c => acc * 10 + (c.toNat - 48)) 0)
    some (if su.1 then -v else v)

/-- part_008 lines 368-372 and 389-392: productId normalisation — a string
argument goes through parseInt (none models NaN), a number stays as is. -/
def normalizeProductId : Option JsonValue → Option JsonValue
  | some (JsonValue.jstr s) =>
    (match jsParseInt s with
     | some n => some (JsonValue.jnum (n : ℚ))
     | none => none)
  | v => v

/-- The collaborator call selected by the dispatcher's switch (part_008
lines 360-403): each constructor records the arguments handed over. -/
inductive ToolAction
  | productInfo (query : Option (List Char))
  | userInfo (userId : Option (List Char))
  | basketAdd (userId : Option (List Char)) (productId : Option JsonValue)
      (quantity : Option ℚ)
  | basketGet (userId : Option (List Char))
  | basketRemove (userId : Option (List Char)) (productId : Option JsonValue)
      (quantity : Option ℚ)
  | couponGen (discount : Option ℚ)
  | sqlQuery (query : Option (List Char)) (explanation : Option (List Char))
  | linuxCommand (command : Option (List Char)) (userId : Option (List Char))

/-- part_008 lines 187-348: the names of the statically declared tool
catalog (botTools). -/
def toolCatalog : List String :=
  ["get_product_information", "get_user_information", "add_to_basket", "get_basket",
   "remove_from_basket", "generate_coupon", "execute_sql_query", "execute_linux_command"]

/-- part_008 lines 360-405: the switch of executeToolFunction; Except.error
models the thrown Unknown function error (caught by the surrounding try). -/
def dispatchTool (functionName : String) (parameters : ToolParams) :
    Except String ToolAction :=
  if functionName = "get_product_information" then
    Except.ok (ToolAction.productInfo parameters.query)
  else if functionName = "get_user_information" then
    Except.ok (ToolAction.userInfo parameters.userId)
  else if functionName = "add_to_basket" then
    Except.ok (ToolAction.basketAdd parameters.userId
      (normalizeProductId parameters.productId) parameters.quantity)
  else if functionName = "get_basket" then
    Except.ok (ToolAction.basketGet parameters.userId)
  else if functionName = "remove_from_basket" then
    Except.ok (ToolAction.basketRemove parameters.userId
      (normalizeProductId parameters.productId) parameters.quantity)
  else if functionName = "generate_coupon" then
    Except.ok (ToolAction.couponGen parameters.discount)
  else if functionName = "execute_sql_query" then
    Except.ok (ToolAction.sqlQuery parameters.query parameters.explanation)
  else if functionName = "execute_linux_command" then
    Except.ok (ToolAction.linuxCommand parameters.command parameters.userId)
  else Except.error ("Unknown function: " ++ functionName)

/-- ToolResult (§3): a structured result with an optional error; hasData
records whether any payload was produced. -/
structure ToolResult where
  hasData : Bool
  error : Option String
deriving DecidableEq

/-- part_008 lines 351-413: executeToolFunction — dispatch on the name, run
the selected collaborator (runner), and the catch block that converts a
thrown error into a ToolResult with the error field set and no data. -/
def executeToolFunction (functionName : String) (parameters : ToolParams)
    (runner : ToolAction → ToolResult) : ToolResult :=
  match dispatchTool functionName parameters with
  | Except.ok action => runner action
  | Except.error e =>
    { hasData := false
      error := some ("Error executing function " ++ functionName ++ ": " ++ e) }

/-- part_008 lines 1156-1161: the user-scoped function list for which
processChat overrides the model-supplied userId. -/
def userScopedFunctions : List String :=
  ["get_user_information", "add_to_basket", "get_basket"]

/-- part_008 lines 1156-1161: before invoking the tool, processChat replaces
parameters.userId with the authenticated session's userId whenever the
function name is in userScopedFunctions. -/
def injectAuthenticatedUserId (functionName : String) (parameters : ToolParams)
    (userId : List Char) : ToolParams :=
  if userScopedFunctions.contains functionName then
    { parameters with userId := some userId }
  else parameters

/-- The host's reaction to an executed shell command (the child_process exec
collaborator). -/
structure ExecResult where
  stdout : List Char
  stderr : List Char
  failed : Bool
deriving DecidableEq

/-- The observable outcome of executeLinuxCommand: the command passed to the
host exec (if any was executed), and whether the error field was set. -/
structure LinuxCommandOutcome where
  executedCommand : Option (List Char)
  errorSet : Bool
deriving DecidableEq

/-- part_008 lines 943-961: executeLinuxCommand hands the command directly to
execAsync with a 30 second timeout and no guardrail evaluation; the try/catch
only shapes the returned payload. -/
def executeLinuxCommand (host : List Char → ExecResult) (command : List Char)
    (userId : List Char) : LinuxCommandOutcome :=
  let r := host command
  { executedCommand := some command
    errorSet := r.failed }

/-- Modelled from the spec: the shell guardrail isSystemCommandAllowed lives
in lib/insecurity, which is not among the provided source files (only its
caller expectations in the protection test, src/unnamed/part_009 lines 41-47,
are); modelled from §4.1 — deny only commands that would take down the
serving process or host: container stop, compose down, service stop,
shutdown, recursive deletion of root. -/
def isSystemCommandAllowed (command : List Char) : Bool :=
  !(containsCS (chars "docker stop") command ||
    containsCS (chars "docker-compose down") command ||
    containsCS (chars "systemctl stop") command ||
    containsCS (chars "shutdown") command ||
    containsCS (chars "rm -rf /") command)

/-- The result returned by lib/insecurity generateCoupon for the clamped
discount (external collaborator, abstracted as mkCode). -/
structure CouponResult where
  couponCode : List Char
  discount : ℚ
deriving DecidableEq

/-- part_008 lines 860-874 / part_007 lines 517-531: generateCoupon clamps
the requested discount to the range 10 to 20 and generates the code for the
clamped value. -/
def generateCoupon (mkCode : ℚ → List Char) (discount : ℚ) : CouponResult :=
  let safeDiscount := min (max discount 10) 20
  { couponCode := mkCode safeDiscount
    discount := safeDiscount }

/-- The observable outcome of executeSqlQuery: denial with the fixed message,
or execution of a statement text. -/
inductive SqlOutcome
  | denied (message : List Char)
  | executed (statement : List Char)
deriving DecidableEq

/-- part_007 lines 536-569: executeSqlQuery — guardrail first; on approval
the executed text is the query with LIMIT 100 appended unless the query
already contains the substring LIMIT (case-sensitively). -/
def executeSqlQuery (query : List Char) : SqlOutcome :=
  if !isQueryAllowed query then
    SqlOutcome.denied (chars "This query cannot be executed for security reasons. Only SELECT queries on non-sensitive tables are allowed.")
  else
    SqlOutcome.executed
      (if containsCS (chars "LIMIT") query then query else query ++ chars " LIMIT 100")

/-- The specification reading of already specifying a row limit (§4.4): the
statement contains the LIMIT keyword in any letter case (SQL keywords are
case-insensitive). -/
def specifiesRowLimit (query : List Char) : Bool :=
  containsCS (chars "limit") (query.map Char.toLower)

/-- The authenticated user record the respond handler reads from the JWT
(part_005 lines 42-69). -/
structure UserRecord where
  id : Nat
  username : List Char
deriving DecidableEq

/-- The outcome of the token check in the handlers (part_005 lines 102-116):
no token, a token that verifies to no user, or an authenticated user. -/
inductive AuthState
  | noToken
  | invalidToken
  | authenticated (user : UserRecord)
deriving DecidableEq

/-- The JSON reply of a handler: HTTP status, the error field, and the
action/body fields of a chat response. -/
structure HttpReply where
  status : Nat
  errorMessage : Option (List Char)
  action : Option (List Char)
  body : Option (List Char)
deriving DecidableEq

/-- JavaScript falsiness of req.body.query: absent, or the empty string. -/
def isFalsyQuery : Option (List Char) → Bool
  | none => true
  | some s => s.isEmpty

/-- The action/body pair produced by processChat (abstracted collaborator). -/
structure ChatTurn where
  action : List Char
  body : List Char
deriving DecidableEq

/-- String(user.id) as the handlers convert the numeric id. -/
def natToChars (n : Nat) : List Char := (toString n).data

/-- part_005 lines 99-141: the authenticated respond handler — 401 without a
valid token; with a falsy query a 200 reply carrying the greeting; otherwise
a 200 reply with the processChat result.  greeting stands for
chatbot.getGreeting and chat for chatbot.processChat. -/
def respondHandler (auth : AuthState) (query : Option (List Char))
    (greeting : Option (List Char) → List Char)
    (chat : List Char → List Char → ChatTurn) : HttpReply :=
  match auth with
  | AuthState.noToken =>
    { status := 401, errorMessage := some (chars "Unauthenticated user")
      action := none, body := none }
  | AuthState.invalidToken =>
    { status := 401, errorMessage := some (chars "Unauthenticated user")
      action := none, body := none }
  | AuthState.authenticated user =>
    if isFalsyQuery query then
      { status := 200, errorMessage := none, action := some (chars "response")
        body := some (greeting (some user.username)) }
    else
      let r := chat (natToChars user.id) (query.getD [])
      { status := 200, errorMessage := none, action := some r.action
        body := some r.body }

/-- part_005 lines 72-96: the process handler (also for unauthenticated
users) — a falsy query gives a 400 reply with the error No query provided;
otherwise a 200 reply with the processChat result. -/
def processHandler (bodyUserId : Option (List Char)) (query : Option (List Char))
    (chat : List Char → List Char → ChatTurn) : HttpReply :=
  let userId := bodyUserId.getD (chars "anonymous")
  if isFalsyQuery query then
    { status := 400, errorMessage := some (chars "No query provided")
      action := none, body := none }
  else
    let r := chat userId (query.getD [])
    { status := 200, errorMessage := none, action := some r.action
      body := some r.body }

/-- Claim C3: every SQL string that matches a deny pattern or references a
restricted table is classified as not allowed by the guardrail, regardless of
any allow-pattern match: deny takes precedence over allow. -/
theorem c3_deny_precedence (q : List Char)
    (h : matchesDisallowedPattern q = true ∨ referencesRestrictedTable q = true) :
    isQueryAllowed q = false := by
  unfold isQueryAllowed
  rcases h with h | h <;> simp [h]

/-- Claim C3 witness: a deny-matched query that also matches an allow pattern
is rejected. -/
theorem c3_deny_precedence_witness :
    (matchesDisallowedPattern (chars "SELECT a FROM Users UNION SELECT b FROM c") = true ∨
      referencesRestrictedTable (chars "SELECT a FROM Users UNION SELECT b FROM c") = true) ∧
    matchesAllowedPattern (chars "SELECT a FROM Users UNION SELECT b FROM c") = true ∧
    isQueryAllowed (chars "SELECT a FROM Users UNION SELECT b FROM c") = false :=
  ⟨Or.inl (by decide), by decide,
    c3_deny_precedence (chars "SELECT a FROM Users UNION SELECT b FROM c") (Or.inl (by decide))⟩


/-- splitOnSpace always yields at least one token (the empty string splits to
one empty token, as in JavaScript). -/
theorem splitOnSpace_length_pos (s : List Char) : 0 < (splitOnSpace s).length := by
  cases s with
  | nil => simp [splitOnSpace]
  | cons c cs =>
    simp only [splitOnSpace]
    by_cases h : (c == ' ') = true
    · simp [h]
    · simp only [h]
      cases splitOnSpace cs <;> simp

/-- Claim C5 counterexample: on the search term a-space-space-b and the
candidate c-space-space-d, the implementation scores 1/3 (the empty token
produced by the double space counts as a common word under single-space
splitting), while the specified whitespace-token overlap gives 0; the
implemented score therefore differs from the specified reference algorithm. -/
theorem c5_counterexample :
    calculateNameMatchScore (chars "a  b") (chars "c  d") = 1/3 ∧
    specNameMatchScore (chars "a  b") (chars "c  d") = 0 ∧
    calculateNameMatchScore (chars "a  b") (chars "c  d") ≠
      specNameMatchScore (chars "a  b") (chars "c  d") := by
  have h1 : calculateNameMatchScore (chars "a  b") (chars "c  d") = 1/3 := by
    simp only [calculateNameMatchScore]
    rw [if_neg (by decide), if_neg (by decide), if_neg (by decide)]
    rw [show ((splitOnSpace ((chars "a  b").map Char.toLower)).filter
        (fun w => (splitOnSpace ((chars "c  d").map Char.toLower)).contains w)).length = 1
      from by decide]
    rw [show (splitOnSpace ((chars "a  b").map Char.toLower)).length = 3 from by decide]
    rw [show (splitOnSpace ((chars "c  d").map Char.toLower)).length = 3 from by decide]
    norm_num
  have h2 : specNameMatchScore (chars "a  b") (chars "c  d") = 0 := by
    simp only [specNameMatchScore]
    rw [if_neg (by decide), if_neg (by decide), if_neg (by decide)]
    rw [show ((wsTokens ((chars "a  b").map Char.toLower)).filter
        (fun w => (wsTokens ((chars "c  d").map Char.toLower)).contains w)).length = 0
      from by decide]
    norm_num
  refine ⟨h1, h2, ?_⟩
  rw [h1, h2]
  norm_num

/-- Claim C5 (amended): the score follows the strict precedence order —
case-folded equality 1, candidate-contains-search 0.9, search-contains-
candidate 0.8, otherwise the token-overlap ratio where tokens come from
splitting on single space characters (empty tokens kept, common tokens
counted from the search side); the result always lies in [0,1] and the score
of any string against itself is 1. -/
theorem c5_amended_space_token_score (search actual : List Char) :
    0 ≤ calculateNameMatchScore search actual ∧
    calculateNameMatchScore search actual ≤ 1 ∧
    calculateNameMatchScore search search = 1 ∧
    (search.map Char.toLower = actual.map Char.toLower →
      calculateNameMatchScore search actual = 1) ∧
    (search.map Char.toLower ≠ actual.map Char.toLower →
      containsCS (search.map Char.toLower) (actual.map Char.toLower) = true →
      calculateNameMatchScore search actual = 9/10) ∧
    (search.map Char.toLower ≠ actual.map Char.toLower →
      containsCS (search.map Char.toLower) (actual.map Char.toLower) = false →
      containsCS (actual.map Char.toLower) (search.map Char.toLower) = true →
      calculateNameMatchScore search actual = 8/10) ∧
    (search.map Char.toLower ≠ actual.map Char.toLower →
      containsCS (search.map Char.toLower) (actual.map Char.toLower) = false →
      containsCS (actual.map Char.toLower) (search.map Char.toLower) = false →
      calculateNameMatchScore search actual =
        (((splitOnSpace (search.map Char.toLower)).filter
            (fun w => (splitOnSpace (actual.map Char.toLower)).contains w)).length : ℚ) /
          (max (splitOnSpace (search.map Char.toLower)).length
            (splitOnSpace (actual.map Char.toLower)).length : ℚ)) := by
  have hratio_nonneg : (0 : ℚ) ≤
      (((splitOnSpace (search.map Char.toLower)).filter
          (fun w => (splitOnSpace (actual.map Char.toLower)).contains w)).length : ℚ) /
        (max (splitOnSpace (search.map Char.toLower)).length
          (splitOnSpace (actual.map Char.toLower)).length : ℚ) := by
    positivity
  have hratio_le_one :
      (((splitOnSpace (search.map Char.toLower)).filter
          (fun w => (splitOnSpace (actual.map Char.toLower)).contains w)).length : ℚ) /
        (max (splitOnSpace (search.map Char.toLower)).length
          (splitOnSpace (actual.map Char.toLower)).length : ℚ) ≤ 1 := by
    apply div_le_one_of_le₀
    · exact_mod_cast le_trans (List.length_filter_le _ _) (le_max_left _ _)
    · positivity
  refine ⟨?_, ?_, ?_, ?_, ?_, ?_, ?_⟩
  · simp only [calculateNameMatchScore]
    split_ifs <;> first | exact hratio_nonneg | norm_num
  · simp only [calculateNameMatchScore]
    split_ifs <;> first | exact hratio_le_one | norm_num
  · simp [calculateNameMatchScore]
  · intro h
    simp [calculateNameMatchScore, h]
  · intro h hc
    simp [calculateNameMatchScore, h, hc]
  · intro h hc1 hc2
    simp [calculateNameMatchScore, h, hc1, hc2]
  · intro h hc1 hc2
    simp [calculateNameMatchScore, h, hc1, hc2]

/-- Claim C5 witness (for the amended statement): concrete evaluations of the
precedence tiers. -/
theorem c5_amended_space_token_score_witness :
    calculateNameMatchScore (chars "apple") (chars "apple juice") = 9/10 ∧
    0 ≤ calculateNameMatchScore (chars "zzz") (chars "apple juice") ∧
    calculateNameMatchScore (chars "Apple Juice") (chars "Apple Juice") = 1 :=
  ⟨(c5_amended_space_token_score (chars "apple") (chars "apple juice")).2.2.2.2.1
      (by decide) (by decide),
   (c5_amended_space_token_score (chars "zzz") (chars "apple juice")).1,
   (c5_amended_space_token_score (chars "Apple Juice") (chars "Apple Juice")).2.2.1⟩

/-- Normal form of one append on a history with a pinned head: the head is
kept and the tail keeps its last MAX_HISTORY_LENGTH entries (all of them when
no eviction is needed), oldest evicted first, order preserved. -/
theorem addToConversationHistory_cons (sys : Msg) (tail : List Msg) (m : Msg) :
    addToConversationHistory (sys :: tail) m
      = sys :: (tail ++ [m]).drop (tail.length + 1 - MAX_HISTORY_LENGTH) := by
  unfold addToConversationHistory MAX_HISTORY_LENGTH
  simp only [List.cons_append]
  by_cases hc : tail.length ≥ 10
  · rw [if_pos (by simp only [List.length_cons, List.length_append,
      List.length_singleton, List.length_nil]; omega)]
    show sys :: (sys :: (tail ++ [m])).drop ((sys :: (tail ++ [m])).length - 10)
        = sys :: (tail ++ [m]).drop (tail.length + 1 - 10)
    have h2 : (sys :: (tail ++ [m])).length - 10 = (tail.length + 1 - 10) + 1 := by
      simp only [List.length_cons, List.length_append, List.length_singleton,
        List.length_nil]
      omega
    rw [h2, List.drop_succ_cons]
  · rw [if_neg (by simp only [List.length_cons, List.length_append,
      List.length_singleton, List.length_nil]; omega)]
    have h0 : tail.length + 1 - 10 = 0 := by omega
    rw [h0, List.drop_zero]

/-- Length after repeated appends with a pinned head: the tail length grows
until it saturates at MAX_HISTORY_LENGTH. -/
theorem foldl_addToConversationHistory_length (msgs : List Msg) (sys : Msg) (tail : List Msg)
    (htail : tail.length ≤ MAX_HISTORY_LENGTH) :
    (msgs.foldl addToConversationHistory (sys :: tail)).length
      = min (tail.length + msgs.length) MAX_HISTORY_LENGTH + 1 := by
  induction msgs generalizing tail with
  | nil =>
    simp only [List.foldl_nil, List.length_cons, List.length_nil, Nat.add_zero,
      MAX_HISTORY_LENGTH] at htail ⊢
    omega
  | cons m ms ih =>
    rw [List.foldl_cons, addToConversationHistory_cons]
    have hlen : ((tail ++ [m]).drop (tail.length + 1 - MAX_HISTORY_LENGTH)).length
        = min (tail.length + 1) MAX_HISTORY_LENGTH := by
      simp only [List.length_drop, List.length_append, List.length_singleton,
        List.length_cons, List.length_nil, MAX_HISTORY_LENGTH] at htail ⊢
      omega
    rw [ih _ (by rw [hlen]; exact min_le_right _ _), hlen]
    simp only [List.length_cons, List.length_nil, MAX_HISTORY_LENGTH] at htail ⊢
    omega

/-- The pinned head survives every append. -/
theorem foldl_addToConversationHistory_head (msgs : List Msg) (sys : Msg) (tail : List Msg) :
    (msgs.foldl addToConversationHistory (sys :: tail)).head? = some sys := by
  induction msgs generalizing tail with
  | nil => rfl
  | cons m ms ih =>
    rw [List.foldl_cons, addToConversationHistory_cons]
    exact ih _

/-- Claim C4: after every append the history length is at most
MAX_HISTORY_LENGTH plus the one pinned prefix entry, element 0 is still the
pinned system message, eviction removes the oldest non-pinned entries first
preserving the order of the rest, and after appending MAX_HISTORY_LENGTH + 5
non-pinned messages to a fresh session the length is exactly
MAX_HISTORY_LENGTH + 1. -/
theorem c4_history_window (sys m : Msg) (tail : List Msg) (msgs : List Msg)
    (hmsgs : msgs.length = MAX_HISTORY_LENGTH + 5) :
    (addToConversationHistory (sys :: tail) m).length ≤ MAX_HISTORY_LENGTH + 1 ∧
    (addToConversationHistory (sys :: tail) m).head? = some sys ∧
    addToConversationHistory (sys :: tail) m
      = sys :: (tail ++ [m]).drop (tail.length + 1 - MAX_HISTORY_LENGTH) ∧
    (msgs.foldl addToConversationHistory [sys]).length = MAX_HISTORY_LENGTH + 1 ∧
    (msgs.foldl addToConversationHistory [sys]).head? = some sys := by
  refine ⟨?_, ?_, addToConversationHistory_cons sys tail m, ?_, ?_⟩
  · rw [addToConversationHistory_cons]
    simp only [List.length_cons, List.length_drop, List.length_append,
      List.length_singleton, List.length_nil, MAX_HISTORY_LENGTH]
    omega
  · rw [addToConversationHistory_cons]
    rfl
  · rw [foldl_addToConversationHistory_length msgs sys [] (by simp)]
    simp only [List.length_nil, MAX_HISTORY_LENGTH] at hmsgs ⊢
    omega
  · exact foldl_addToConversationHistory_head msgs sys []

/-- Claim C4 witness: a fresh session given fifteen user messages ends at
length eleven with the system message still first. -/
theorem c4_history_window_witness :
    (List.replicate (MAX_HISTORY_LENGTH + 5) (Msg.mk Role.user (chars "hi") none)).length
        = MAX_HISTORY_LENGTH + 5 ∧
    ((List.replicate (MAX_HISTORY_LENGTH + 5) (Msg.mk Role.user (chars "hi") none)).foldl
        addToConversationHistory [Msg.mk Role.system (chars "prompt") none]).length
      = MAX_HISTORY_LENGTH + 1 ∧
    ((List.replicate (MAX_HISTORY_LENGTH + 5) (Msg.mk Role.user (chars "hi") none)).foldl
        addToConversationHistory [Msg.mk Role.system (chars "prompt") none]).head?
      = some (Msg.mk Role.system (chars "prompt") none) :=
  ⟨List.length_replicate _ _,
   (c4_history_window (Msg.mk Role.system (chars "prompt") none)
      (Msg.mk Role.user (chars "hi") none) []
      (List.replicate (MAX_HISTORY_LENGTH + 5) (Msg.mk Role.user (chars "hi") none))
      (List.length_replicate _ _)).2.2.2.1,
   (c4_history_window (Msg.mk Role.system (chars "prompt") none)
      (Msg.mk Role.user (chars "hi") none) []
      (List.replicate (MAX_HISTORY_LENGTH + 5) (Msg.mk Role.user (chars "hi") none))
      (List.length_replicate _ _)).2.2.2.2⟩

/-- Every product resolveProductFromName returns is one of the search results
carrying its computed score. -/
theorem resolveProductFromName_mem (productName : List Char)
    (products : List CatalogProduct) (r : ResolvedProduct)
    (h : resolveProductFromName productName products = some r) :
    ∃ p ∈ products,
      r = ResolvedProduct.mk p.id p.name p.price
            (calculateNameMatchScore productName p.name) := by
  unfold resolveProductFromName at h
  by_cases he : products.isEmpty
  · rw [if_pos he] at h
    exact absurd h (by simp)
  · rw [if_neg he] at h
    have hmem : r ∈ (products.map fun p =>
        ResolvedProduct.mk p.id p.name p.price
          (calculateNameMatchScore productName p.name)).mergeSort
        (fun a b => decide (b.matchScore ≤ a.matchScore)) :=
      List.mem_of_mem_head? (Option.mem_def.mpr h)
    rw [List.mem_mergeSort] at hmem
    obtain ⟨p, hp, heq⟩ := List.mem_map.mp hmem
    exact ⟨p, hp, heq.symm⟩

/-- resolveProductFromName finds a best match whenever the search returned
any product. -/
theorem resolveProductFromName_isSome (productName : List Char)
    (products : List CatalogProduct) (hne : products ≠ []) :
    ∃ r, resolveProductFromName productName products = some r := by
  unfold resolveProductFromName
  rw [if_neg (by simpa using hne)]
  set l := (products.map fun p =>
      ResolvedProduct.mk p.id p.name p.price
        (calculateNameMatchScore productName p.name)).mergeSort
    (fun a b => decide (b.matchScore ≤ a.matchScore)) with hl
  have hlen : l.length = products.length := by
    rw [hl, (List.mergeSort_perm _ _).length_eq, List.length_map]
  cases hcase : l with
  | nil =>
    exfalso
    rw [hcase] at hlen
    exact hne (List.eq_nil_of_length_eq_zero hlen.symm)
  | cons a as => exact ⟨a, rfl⟩

/-- Claim C6: when every catalog candidate scores below the confirmation
threshold, the basket-add flow returns requiresConfirmation = true and
performs no basket mutation; and any performed mutation implies some
candidate scored at least the threshold. -/
theorem c6_confirmation_threshold (products : List CatalogProduct)
    (basketId : Option (List Char)) (productName : List Char) (quantity : Option ℚ)
    (hne : products ≠ []) :
    ((∀ p ∈ products, calculateNameMatchScore productName p.name < MATCH_THRESHOLD) →
      (handleBasketAddAction products basketId productName quantity).requiresConfirmation
          = true ∧
      (handleBasketAddAction products basketId productName quantity).savedMutation = none) ∧
    (∀ cmd,
      (handleBasketAddAction products basketId productName quantity).savedMutation = some cmd →
      ∃ p ∈ products, MATCH_THRESHOLD ≤ calculateNameMatchScore productName p.name) := by
  obtain ⟨r, hr⟩ := resolveProductFromName_isSome productName products hne
  obtain ⟨p, hp, hpr⟩ := resolveProductFromName_mem productName products r hr
  constructor
  · intro hall
    have hscore : r.matchScore < MATCH_THRESHOLD := by
      rw [hpr]
      exact hall p hp
    simp only [handleBasketAddAction, hr]
    rw [if_pos hscore]
    exact ⟨rfl, rfl⟩
  · intro cmd hcmd
    simp only [handleBasketAddAction, hr] at hcmd
    by_cases hs : r.matchScore < MATCH_THRESHOLD
    · rw [if_pos hs] at hcmd
      simp at hcmd
    · refine ⟨p, hp, ?_⟩
      have hge : MATCH_THRESHOLD ≤ r.matchScore := le_of_not_lt hs
      rw [hpr] at hge
      exact hge

/-- Claim C6 witness: the single candidate Apple Juice scores 0 against the
search zzz, so the flow asks for confirmation and saves nothing. -/
theorem c6_confirmation_threshold_witness :
    (handleBasketAddAction [CatalogProduct.mk 1 (chars "Apple Juice") 3]
        (some (chars "4")) (chars "zzz") none).requiresConfirmation = true ∧
    (handleBasketAddAction [CatalogProduct.mk 1 (chars "Apple Juice") 3]
        (some (chars "4")) (chars "zzz") none).savedMutation = none :=
  (c6_confirmation_threshold [CatalogProduct.mk 1 (chars "Apple Juice") 3]
      (some (chars "4")) (chars "zzz") none (by decide)).1
    (by
      intro p hp
      have hp1 : p = CatalogProduct.mk 1 (chars "Apple Juice") 3 := by
        simpa using hp
      subst hp1
      have hsc : calculateNameMatchScore (chars "zzz") (chars "Apple Juice") = 0 := by
        simp only [calculateNameMatchScore]
        rw [if_neg (by decide), if_neg (by decide), if_neg (by decide)]
        rw [show ((splitOnSpace ((chars "zzz").map Char.toLower)).filter
            (fun w => (splitOnSpace ((chars "Apple Juice").map Char.toLower)).contains w)).length
              = 0 from by decide]
        norm_num
      rw [hsc]
      norm_num [MATCH_THRESHOLD])

/-- A case-sensitive front match survives lower-casing both sides. -/
theorem startsWithCS_map_toLower (p s : List Char)
    (h : startsWithCS p s = true) :
    startsWithCS (p.map Char.toLower) (s.map Char.toLower) = true := by
  induction p generalizing s with
  | nil => simp [startsWithCS]
  | cons a ps ih =>
    cases s with
    | nil => simp [startsWithCS] at h
    | cons c cs =>
      simp only [startsWithCS, Bool.and_eq_true, beq_iff_eq] at h
      simp only [List.map_cons, startsWithCS, Bool.and_eq_true, beq_iff_eq]
      exact ⟨by rw [h.1], ih cs h.2⟩

/-- A case-sensitive substring occurrence survives lower-casing both sides. -/
theorem containsCS_map_toLower (p s : List Char)
    (h : containsCS p s = true) :
    containsCS (p.map Char.toLower) (s.map Char.toLower) = true := by
  induction s with
  | nil =>
    simp only [containsCS] at h ⊢
    simpa using h
  | cons c cs ih =>
    simp only [containsCS, Bool.or_eq_true] at h
    rcases h with h | h
    · simp only [List.map_cons, containsCS, Bool.or_eq_true]
      exact Or.inl (by simpa using startsWithCS_map_toLower p (c :: cs) h)
    · simp only [List.map_cons, containsCS, Bool.or_eq_true]
      exact Or.inr (ih h)

/-- Claim C7 counterexample: the guardrail-approved read statement
SELECT id FROM Users limit 5 already specifies a row limit (lowercase), yet
it is not executed unchanged: the case-sensitive substring check misses the
lowercase keyword and LIMIT 100 is appended after the existing limit 5. -/
theorem c7_counterexample :
    isQueryAllowed (chars "SELECT id FROM Users limit 5") = true ∧
    specifiesRowLimit (chars "SELECT id FROM Users limit 5") = true ∧
    executeSqlQuery (chars "SELECT id FROM Users limit 5") =
      SqlOutcome.executed (chars "SELECT id FROM Users limit 5 LIMIT 100") :=
  ⟨by decide, by decide, by decide⟩

/-- Claim C7 (amended): a guardrail-approved statement is executed with
LIMIT 100 appended exactly when it does not contain the case-sensitive
substring LIMIT, and unchanged otherwise; in particular every approved
statement with no LIMIT keyword in any letter case gets the cap appended.
A statement whose row limit is written in lower case is not executed
unchanged (see the counterexample). -/
theorem c7_amended_limit_append (query : List Char)
    (h : isQueryAllowed query = true) :
    executeSqlQuery query =
      SqlOutcome.executed
        (if containsCS (chars "LIMIT") query then query
         else query ++ chars " LIMIT 100") ∧
    (specifiesRowLimit query = false →
      executeSqlQuery query = SqlOutcome.executed (query ++ chars " LIMIT 100")) := by
  constructor
  · simp [executeSqlQuery, h]
  · intro hs
    have hcs : containsCS (chars "LIMIT") query = false := by
      by_contra hne
      have htrue : containsCS (chars "LIMIT") query = true := by
        cases hval : containsCS (chars "LIMIT") query
        · exact absurd hval hne
        · rfl
      have := containsCS_map_toLower (chars "LIMIT") query htrue
      rw [show (chars "LIMIT").map Char.toLower = chars "limit" from by decide] at this
      rw [specifiesRowLimit] at hs
      rw [hs] at this
      exact Bool.false_ne_true this
    simp [executeSqlQuery, h, hcs]

/-- Claim C7 witness: a plain SELECT without any limit keyword gets the cap
appended. -/
theorem c7_amended_limit_append_witness :
    isQueryAllowed (chars "SELECT name FROM Products") = true ∧
    executeSqlQuery (chars "SELECT name FROM Products") =
      SqlOutcome.executed (chars "SELECT name FROM Products LIMIT 100") :=
  ⟨by decide,
   ((c7_amended_limit_append (chars "SELECT name FROM Products") (by decide)).2
      (by decide)).trans (by decide)⟩

/-- Claim C8 counterexample: an authenticated respond call with a missing
query is answered with status 200 and the greeting, not with the
400-equivalent ValidationError the claim states. -/
theorem c8_counterexample :
    (respondHandler (AuthState.authenticated (UserRecord.mk 1 (chars "alice"))) none
        (fun _ => chars "greeting") (fun _ _ => ChatTurn.mk (chars "response") (chars "x"))).status
      = 200 ∧
    (respondHandler (AuthState.authenticated (UserRecord.mk 1 (chars "alice"))) none
        (fun _ => chars "greeting") (fun _ _ => ChatTurn.mk (chars "response") (chars "x"))).status
      ≠ 400 ∧
    (respondHandler (AuthState.authenticated (UserRecord.mk 1 (chars "alice"))) none
        (fun _ => chars "greeting") (fun _ _ => ChatTurn.mk (chars "response") (chars "x"))).errorMessage
      = none ∧
    (respondHandler (AuthState.authenticated (UserRecord.mk 1 (chars "alice"))) none
        (fun _ => chars "greeting") (fun _ _ => ChatTurn.mk (chars "response") (chars "x"))).body
      = some (chars "greeting") :=
  ⟨rfl, by decide, rfl, rfl⟩

/-- Claim C8 (amended): an authenticated respond call whose query is empty or
missing returns status 200 with the greeting and no error field; the
400-equivalent ValidationError (No query provided) for a missing query is
returned by the process handler, which also serves unauthenticated users. -/
theorem c8_amended_empty_query (user : UserRecord) (query : Option (List Char))
    (greeting : Option (List Char) → List Char)
    (chat : List Char → List Char → ChatTurn)
    (h : isFalsyQuery query = true) :
    respondHandler (AuthState.authenticated user) query greeting chat =
      { status := 200, errorMessage := none, action := some (chars "response")
        body := some (greeting (some user.username)) } ∧
    (∀ bodyUserId, processHandler bodyUserId query chat =
      { status := 400, errorMessage := some (chars "No query provided")
        action := none, body := none }) := by
  constructor
  · simp [respondHandler, h]
  · intro bodyUserId
    simp [processHandler, h]

/-- Claim C8 witness: the amended behaviour at a concrete user and a missing
query. -/
theorem c8_amended_empty_query_witness :
    respondHandler (AuthState.authenticated (UserRecord.mk 2 (chars "bob"))) none
        (fun _ => chars "hello") (fun _ _ => ChatTurn.mk (chars "response") (chars "x")) =
      { status := 200, errorMessage := none, action := some (chars "response")
        body := some (chars "hello") } ∧
    processHandler none none
        (fun _ _ => ChatTurn.mk (chars "response") (chars "x")) =
      { status := 400, errorMessage := some (chars "No query provided")
        action := none, body := none } :=
  ⟨(c8_amended_empty_query (UserRecord.mk 2 (chars "bob")) none (fun _ => chars "hello")
      (fun _ _ => ChatTurn.mk (chars "response") (chars "x")) (by decide)).1,
   (c8_amended_empty_query (UserRecord.mk 2 (chars "bob")) none (fun _ => chars "hello")
      (fun _ _ => ChatTurn.mk (chars "response") (chars "x")) (by decide)).2 none⟩

/-- Claim C9: a tool-call request whose name is not in the statically
declared catalog fails closed — the dispatcher selects no collaborator call,
and executeToolFunction returns, for every runner, the structured ToolResult
with the error field set and no data (the thrown Unknown function error is
caught, so the turn neither crashes nor retries). -/
theorem c9_unknown_tool_fails_closed (functionName : String) (parameters : ToolParams)
    (runner : ToolAction → ToolResult) (h : functionName ∉ toolCatalog) :
    (∀ a, dispatchTool functionName parameters ≠ Except.ok a) ∧
    executeToolFunction functionName parameters runner =
      { hasData := false
        error := some ("Error executing function " ++ functionName ++ ": " ++
          ("Unknown function: " ++ functionName)) } := by
  simp only [toolCatalog, List.mem_cons, List.not_mem_nil, or_false, not_or] at h
  obtain ⟨h1, h2, h3, h4, h5, h6, h7, h8⟩ := h
  constructor
  · intro a
    simp [dispatchTool, h1, h2, h3, h4, h5, h6, h7, h8]
  · simp [executeToolFunction, dispatchTool, h1, h2, h3, h4, h5, h6, h7, h8]

/-- Claim C9 witness: the unknown name make_me_admin yields the error result
regardless of the runner. -/
theorem c9_unknown_tool_fails_closed_witness :
    ("make_me_admin" ∉ toolCatalog) ∧
    executeToolFunction "make_me_admin" {} (fun _ => ToolResult.mk true none) =
      { hasData := false
        error := some ("Error executing function " ++ "make_me_admin" ++ ": " ++
          ("Unknown function: " ++ "make_me_admin")) } :=
  ⟨by decide,
   (c9_unknown_tool_fails_closed "make_me_admin" {} (fun _ => ToolResult.mk true none)
      (by decide)).2⟩

/-- Claim C10: generateCoupon clamps the requested discount to the closed
range 10 to 20 before generating the coupon: the granted discount is
min(max(d, 10), 20), always lies in [10, 20], agrees with the request inside
the range, saturates outside it, and the code is generated for the clamped
value. -/
theorem c10_coupon_discount_clamped (mkCode : ℚ → List Char) (discount : ℚ) :
    (generateCoupon mkCode discount).discount = min (max discount 10) 20 ∧
    10 ≤ (generateCoupon mkCode discount).discount ∧
    (generateCoupon mkCode discount).discount ≤ 20 ∧
    (discount < 10 → (generateCoupon mkCode discount).discount = 10) ∧
    (20 < discount → (generateCoupon mkCode discount).discount = 20) ∧
    (10 ≤ discount → discount ≤ 20 → (generateCoupon mkCode discount).discount = discount) ∧
    (generateCoupon mkCode discount).couponCode
      = mkCode ((generateCoupon mkCode discount).discount) := by
  refine ⟨rfl, ?_, ?_, ?_, ?_, ?_, rfl⟩
  · show (10 : ℚ) ≤ min (max discount 10) 20
    exact le_min (le_max_right discount 10) (by norm_num)
  · exact min_le_right _ _
  · intro hlt
    show min (max discount 10) 20 = 10
    rw [max_eq_right (le_of_lt hlt)]
    exact min_eq_left (by norm_num)
  · intro hgt
    show min (max discount 10) 20 = 20
    rw [min_eq_right]
    exact le_max_of_le_left (le_of_lt hgt)
  · intro h10 h20
    show min (max discount 10) 20 = discount
    rw [max_eq_left h10]
    exact min_eq_left h20

/-- Claim C10 witness: a request of 25 percent is granted 20, a request of
5 percent is granted 10, and a request of 15 percent is granted 15. -/
theorem c10_coupon_discount_clamped_witness :
    (generateCoupon (fun _ => chars "COUPON") 25).discount = 20 ∧
    (generateCoupon (fun _ => chars "COUPON") 5).discount = 10 ∧
    (generateCoupon (fun _ => chars "COUPON") 15).discount = 15 :=
  ⟨(c10_coupon_discount_clamped (fun _ => chars "COUPON") 25).2.2.2.2.1 (by norm_num),
   (c10_coupon_discount_clamped (fun _ => chars "COUPON") 5).2.2.2.1 (by norm_num),
   (c10_coupon_discount_clamped (fun _ => chars "COUPON") 15).2.2.2.2.2.1
      (by norm_num) (by norm_num)⟩

/-- Claim C1 (code bug): executeLinuxCommand passes every proposed command
directly to the host exec with no guardrail evaluation before execution — in
particular the command shutdown -h now, which the shell guardrail policy
denies, is executed anyway. -/
theorem c1_shell_guardrail_bypassed :
    isSystemCommandAllowed (chars "shutdown -h now") = false ∧
    (∀ host userId,
      (executeLinuxCommand host (chars "shutdown -h now") userId).executedCommand
        = some (chars "shutdown -h now")) ∧
    (∀ host command userId,
      (executeLinuxCommand host command userId).executedCommand = some command) :=
  ⟨by decide, fun _ _ => rfl, fun _ _ _ => rfl⟩

/-- Claim C2 (code bug): the identity override covers get_user_information,
add_to_basket and get_basket, but skips the user-scoped basket tool
remove_from_basket: there the model-supplied userId is passed through to the
collaborator call unchanged, so a manipulated model output can remove items
from another user's basket. -/
theorem c2_remove_from_basket_not_overridden :
    (injectAuthenticatedUserId "get_basket"
        { userId := some (chars "999") } (chars "1")).userId = some (chars "1") ∧
    (injectAuthenticatedUserId "add_to_basket"
        { userId := some (chars "999") } (chars "1")).userId = some (chars "1") ∧
    (injectAuthenticatedUserId "get_user_information"
        { userId := some (chars "999") } (chars "1")).userId = some (chars "1") ∧
    (injectAuthenticatedUserId "remove_from_basket"
        { userId := some (chars "999") } (chars "1")).userId = some (chars "999") ∧
    dispatchTool "remove_from_basket"
        (injectAuthenticatedUserId "remove_from_basket"
          { userId := some (chars "999")
            productId := some (JsonValue.jnum 1)
            quantity := some 1 } (chars "1"))
      = Except.ok (ToolAction.basketRemove (some (chars "999"))
          (some (JsonValue.jnum 1)) (some 1)) :=
  ⟨rfl, rfl, rfl, rfl, rfl⟩
